import Mathlib

/-!
Verification development for the splash_flows_globus repository: a shallow
embedding of the dashboard frontend components and of the
transfer/prune/dispatcher core, with theorems settling the specification
claims against them.
-/

namespace SplashFlows

/-! ## Dashboard frontend: flow state model

Embedded from `src/frontend/streaming-frontend/src/types/flowTypes.ts` and
`src/frontend/streaming-frontend/src/components/LaunchFlowButton.tsx`.
-/

/-- The Prefect flow-run states used by the streaming frontend
(`PrefectState` in `flowTypes.ts`). -/
inductive PrefectState
  | SCHEDULED
  | PENDING
  | RUNNING
  | COMPLETED
  | FAILED
  | CANCELLED
  | CRASHED
  | PAUSED
  | CANCELLING
  deriving DecidableEq, Repr

/-- One entry of `flowRunInfos`: a flow run id together with its state,
which may be `null` in the TypeScript source (hence `Option`). -/
structure FlowRunInfo where
  id : String
  state : Option PrefectState
  deriving DecidableEq, Repr

/-- The states that block launching, as listed in `LaunchFlowButton.tsx`
lines 67-71: `[PrefectState.RUNNING, PrefectState.SCHEDULED,
PrefectState.PENDING]`. -/
def launchBlockingStates : List PrefectState :=
  [PrefectState.RUNNING, PrefectState.SCHEDULED, PrefectState.PENDING]

/-- The guard of `LaunchFlowButton` (lines 63-75): `flowRunInfos.some(info =>
info.state !== null && [...].includes(info.state))`. -/
def anyActiveFlow (flowRunInfos : List FlowRunInfo) : Bool :=
  flowRunInfos.any fun info =>
    match info.state with
    | none => false
    | some s => launchBlockingStates.contains s

/-- Whether `LaunchFlowButton` renders its button: the component returns
`null` (renders nothing) exactly when `anyActiveFlow` holds. -/
def launchFlowButtonRenders (flowRunInfos : List FlowRunInfo) : Bool :=
  !(anyActiveFlow flowRunInfos)

/-! ## Dashboard frontend: SlurmJobTime

Embedded from `src/frontend/streaming-frontend/src/components/SlurmJobTime.tsx`.
Strings are modelled as their character lists; JavaScript `NaN` produced by
`Number(...)` on a non-numeric field is modelled as `none`.
-/

/-- Model of JavaScript `timeStr.split(":")` on the character list of the
string: splits on the colon character, keeping empty fields. -/
def splitOnColon : List Char → List (List Char)
  | [] => [[]]
  | c :: rest =>
    let r := splitOnColon rest
    if c = ':' then [] :: r
    else
      match r with
      | [] => [[c]]
      | f :: fs => (c :: f) :: fs

/-- Model of JavaScript `Number(field)` on a field made of decimal digits:
`Number("")` is `0`, a non-digit character yields `NaN` (modelled `none`). -/
def parseNumber (cs : List Char) : Option Nat :=
  cs.foldl
    (fun acc c =>
      match acc with
      | none => none
      | some a => if c.isDigit then some (a * 10 + (c.toNat - 48)) else none)
    (some 0)

/-- `timeToSeconds` from `SlurmJobTime.tsx` lines 12-17: `null` input gives
`0`; otherwise the string is split on `":"`, the first three fields are
converted with `Number`, and combined as `hours*3600 + minutes*60 + seconds`.
A missing or non-numeric field makes the JavaScript result `NaN`, modelled
as `none`. -/
def timeToSeconds (timeStr : Option (List Char)) : Option Nat :=
  match timeStr with
  | none => some 0
  | some s =>
    match (splitOnColon s).map parseNumber with
    | some h :: some m :: some sec :: _ => some (h * 3600 + m * 60 + sec)
    | _ => none

/-- `percentageUsed` from `SlurmJobTime.tsx` lines 33-36:
`Math.min(Math.round((elapsedSeconds / limitSeconds) * 100), 100)`.
For naturals with `limitSeconds > 0` the rounded quotient is
`⌊(200*elapsed + limit) / (2*limit)⌋`; the final `Math.min` cap makes the
`≤ 100` bound insensitive to the floating-point rounding of the source. -/
def percentageUsed (elapsedSeconds limitSeconds : Nat) : Nat :=
  min ((200 * elapsedSeconds + limitSeconds) / (2 * limitSeconds)) 100

/-! ## Transfer-and-retention core

The Python core (`orchestration/flows/bl832/prune.py`,
`orchestration/transfer_controller.py`, `orchestration/prune_controller.py`,
the per-beamline `dispatcher.py` and `move.py`) is present in this
repository snapshot only through its documentation
(`src/unnamed/part_013`, `part_014`, `part_016`); the definitions below are
therefore modelled from the specification, as indicated on each one.
-/

/-- Modelled from the spec: endpoints are named storage locations; the
world records, for each (endpoint name, relative path) pair, whether the
file is currently present there.  The missing source is
`orchestration/transfer_endpoints.py` together with the concrete storage
backends. A relative path is the list of its `/`-separated components. -/
abbrev World : Type := List (String × List String)

/-- Whether `path` exists at endpoint `ep` in world `w`. -/
def fileExists (w : World) (ep : String) (path : List String) : Bool :=
  decide ((ep, path) ∈ w)

/-- Deleting `path` at endpoint `ep`: every record of that copy is removed;
all other copies are untouched. -/
def deleteFile (w : World) (ep : String) (path : List String) : World :=
  w.filter fun e => decide (e ≠ (ep, path))

/-- Modelled from the spec (§4.1/§4.2, missing source
`orchestration/transfer_controller.py`): a relative path is valid when it
is non-empty and contains no `..` traversal component. -/
def pathValid (path : List String) : Bool :=
  !path.isEmpty && !path.contains ".."

/-- Modelled from the spec (§3, missing source
`orchestration/flows/bl832/prune.py`): a scheduled prune task — source
endpoint, relative path, earliest-eligible-time (in days since an arbitrary
epoch), and the optional downstream endpoint whose possession of the file
must be re-verified at execution time. -/
structure PruneTask where
  endpoint : String
  path : List String
  earliest : Nat
  verifyExistsAt : Option String
  deriving DecidableEq, Repr

/-- The observable outcomes of `executePrune`: the spec requires a
distinguishable "verification failed" outcome, an idempotent-no-op success
when the file is already absent, a failure report on deletion errors, and
fail-fast rejection of traversal paths. -/
inductive PruneOutcome
  | pruneSuccess
  | verificationFailed
  | deleteFailed
  | invalidPath
  | notYetEligible
  deriving DecidableEq, Repr

/-- Modelled from the spec (§4.2, missing source
`orchestration/flows/bl832/prune.py`): `schedule_prune` computes
earliest-eligible-time = now + after_days and registers the task; the
returned handle is the task itself. -/
def schedulePrune (now : Nat) (endpoint : String) (path : List String)
    (afterDays : Nat) (verifyExistsAt : Option String) : PruneTask :=
  { endpoint := endpoint
    path := path
    earliest := now + afterDays
    verifyExistsAt := verifyExistsAt }

/-- Modelled from the spec (§4.2 steps 1-3, missing source `prune_one_safe`
in `orchestration/flows/bl832/prune.py`): `execute_prune` first rejects
traversal paths (never deletes outside the endpoint root), never executes
before the task's earliest-eligible-time, then (1) re-checks existence at
the `verify_exists_at` endpoint and aborts with a verification-failed
outcome when absent, (2) treats an already-absent source file as an
idempotent no-op success, and (3) deletes, reporting failure when the
endpoint refuses (`deleteOk = false`).  Returns the outcome and the world
after the call. -/
def executePrune (deleteOk : Bool) (now : Nat) (task : PruneTask)
    (w : World) : PruneOutcome × World :=
  if ¬ pathValid task.path then (PruneOutcome.invalidPath, w)
  else if now < task.earliest then (PruneOutcome.notYetEligible, w)
  else
    let verified :=
      match task.verifyExistsAt with
      | none => true
      | some checkEp => fileExists w checkEp task.path
    if verified = false then (PruneOutcome.verificationFailed, w)
    else if fileExists w task.endpoint task.path = false then
      (PruneOutcome.pruneSuccess, w)
    else if deleteOk then
      (PruneOutcome.pruneSuccess, deleteFile w task.endpoint task.path)
    else (PruneOutcome.deleteFailed, w)

/-! ## Transfer controller -/

/-- Result of one submission attempt against the external movement
service: the transport layer may raise a transient error, or the service
accepts and returns a transfer id. -/
inductive SubmitResult
  | transportError (msg : String)
  | accepted (transferId : Nat)
  deriving DecidableEq, Repr

/-- Status reported by the movement service when polled. -/
inductive PollStatus
  | pending
  | succeededS
  | failedS
  deriving DecidableEq, Repr

/-- Modelled from the spec (§6, external movement service): the behaviour
of the external service during one `transfer` call, as oracles indexed by
the submission attempt number and the poll number. -/
structure MoverEnv where
  submit : Nat → SubmitResult
  status : Nat → PollStatus

/-- Modelled from the spec (§4.1): the transfer controller's
configuration — the small fixed submission retry count, and the number of
status polls performed within `max_wait` at the bounded poll interval. -/
structure TransferConfig where
  maxSubmitAttempts : Nat
  maxPolls : Nat
  deriving DecidableEq, Repr

/-- Outcome of a `transfer` call.  `timedOut` is distinct from `failed`
so callers can tell a possibly still-running remote transfer from a
rejected one; `traversalError` is the fail-fast rejection of invalid
paths. -/
inductive TransferOutcome
  | succeeded
  | failed
  | timedOut
  | traversalError
  deriving DecidableEq, Repr

/-- The `TransferResult` record: outcome, number of submission attempts
made, and the last captured error detail. -/
structure TransferResult where
  outcome : TransferOutcome
  attemptCount : Nat
  errorDetail : Option String
  deriving DecidableEq, Repr

/-- Modelled from the spec (§4.1, missing source
`orchestration/transfer_controller.py`): submission with bounded retries.
`remaining` attempts are left, `used` have been made, `lastErr` is the last
transport error seen.  Returns the accepted transfer id (if any), the total
attempts used, and the last error. -/
def trySubmit (submit : Nat → SubmitResult) :
    Nat → Nat → Option String → Option Nat × Nat × Option String
  | 0, used, lastErr => (none, used, lastErr)
  | remaining + 1, used, lastErr =>
    match submit used with
    | SubmitResult.accepted tid => (some tid, used + 1, lastErr)
    | SubmitResult.transportError e =>
      trySubmit submit remaining (used + 1) (some e)

/-- Modelled from the spec (§4.1): the poll loop — at most `remaining`
polls starting at poll number `i`; a succeeded/failed report ends the
loop, and exhausting `max_wait` yields `timedOut`, never `failed`. -/
def pollLoop (status : Nat → PollStatus) : Nat → Nat → TransferOutcome
  | 0, _ => TransferOutcome.timedOut
  | remaining + 1, i =>
    match status i with
    | PollStatus.succeededS => TransferOutcome.succeeded
    | PollStatus.failedS => TransferOutcome.failed
    | PollStatus.pending => pollLoop status remaining (i + 1)

/-- Modelled from the spec (§4.1, missing source
`orchestration/transfer_controller.py`): `transfer(source, destination,
relative_path)`.  Validates the path first (traversal rejected with no
submission), retries submission up to the fixed count capturing the last
error, then polls to completion or timeout.  The second component counts
submissions actually sent to the movement service, so "no I/O" is
observable. -/
def transfer (cfg : TransferConfig) (env : MoverEnv)
    (_source _destination : String) (path : List String) :
    TransferResult × Nat :=
  if ¬ pathValid path then
    ({ outcome := TransferOutcome.traversalError
       attemptCount := 0
       errorDetail := some "path traversal" }, 0)
  else
    match trySubmit env.submit cfg.maxSubmitAttempts 0 none with
    | (none, used, lastErr) =>
      ({ outcome := TransferOutcome.failed
         attemptCount := used
         errorDetail := lastErr }, used)
    | (some _, used, _) =>
      ({ outcome := pollLoop env.status cfg.maxPolls 0
         attemptCount := used
         errorDetail := none }, used)

/-! ## Job dispatcher -/

/-- Modelled from the spec (§4.3, missing source
`orchestration/flows/bl832/dispatcher.py` and `move.py`): the stages of a
dataset journey, in order. -/
inductive Stage
  | transferLocal
  | transferRemote
  | reconstruction
  | buildDerived
  | ingest
  | pruneSchedule
  deriving DecidableEq, Repr

/-- The journey's stage order for the 8.3.2 beamline:
beamline → local cache → HPC, reconstruction and derived build, metadata
ingest, then prune scheduling. -/
def journeyStages : List Stage :=
  [Stage.transferLocal, Stage.transferRemote, Stage.reconstruction,
   Stage.buildDerived, Stage.ingest, Stage.pruneSchedule]

/-- Result a stage reports to the dispatcher. -/
inductive StageResult
  | stageSuccess
  | stageFailed
  | stageTimedOut
  deriving DecidableEq, Repr

/-- Modelled from the spec (§4.3): one dispatcher run over the remaining
stages.  A stage whose idempotent already-completed check (`completedB`)
holds is skipped, not attempted; an attempted stage's result comes from
`oracle`; on success the run continues, on failure or timeout it halts
there.  Returns the list of stages actually attempted, in order, and the
halting stage with its result when the run halted. -/
def runStages (oracle : Stage → StageResult) (completedB : Stage → Bool) :
    List Stage → List Stage × Option (Stage × StageResult)
  | [] => ([], none)
  | s :: rest =>
    if completedB s then runStages oracle completedB rest
    else
      match oracle s with
      | StageResult.stageSuccess =>
        let r := runStages oracle completedB rest
        (s :: r.1, r.2)
      | StageResult.stageFailed => ([s], some (s, StageResult.stageFailed))
      | StageResult.stageTimedOut => ([s], some (s, StageResult.stageTimedOut))

/-- The dispatcher's reported outcome for one run: the journey completed
in this run, was already complete (nothing needed doing), or halted at a
stage whose failure is surfaced. -/
inductive RunOutcome
  | completed
  | alreadyComplete
  | halted (s : Stage) (r : StageResult)
  deriving DecidableEq, Repr

/-- A dispatcher run's report: the stages attempted in this run and the
surfaced outcome. -/
structure JourneyReport where
  attempted : List Stage
  outcome : RunOutcome
  deriving DecidableEq, Repr

/-- Modelled from the spec (§4.3, missing source
`orchestration/flows/bl832/dispatcher.py`): one dispatcher invocation for
a dataset.  Already-completed stages are detected and skipped; stages are
attempted strictly in order; a failure halts the run and is surfaced in
the outcome; when every stage was already complete the run reports the
already-completed outcome without attempting anything. -/
def runJourney (oracle : Stage → StageResult) (completedB : Stage → Bool)
    (stages : List Stage) : JourneyReport :=
  let r := runStages oracle completedB stages
  { attempted := r.1
    outcome :=
      match r.2 with
      | some (s, res) => RunOutcome.halted s res
      | none =>
        if r.1.isEmpty then RunOutcome.alreadyComplete
        else RunOutcome.completed }

/-! ## Claim theorems -/

/-- After deleting a copy, that copy is gone from the world. -/
theorem fileExists_deleteFile_self (w : World) (ep : String)
    (p : List String) : fileExists (deleteFile w ep p) ep p = false := by
  simp [fileExists, deleteFile, List.mem_filter]

/-- Deleting one copy leaves every other (endpoint, path) record intact. -/
theorem fileExists_deleteFile_ne (w : World) (ep ep' : String)
    (p p' : List String) (h : (ep', p') ≠ (ep, p)) :
    fileExists (deleteFile w ep p) ep' p' = fileExists w ep' p' := by
  simp [fileExists, deleteFile, List.mem_filter, h]

/-- C1: for every PruneTask whose `verify_exists_at` endpoint is set, if
the existence check at that endpoint fails at execution time, then
`execute_prune` aborts without deleting, reports the verification-failed
outcome, and the file at the source endpoint is still present when it
returns. -/
theorem prune_verification_failure_preserves_source
    (deleteOk : Bool) (now : Nat) (task : PruneTask) (w : World)
    (checkEp : String)
    (hpath : pathValid task.path = true)
    (helig : task.earliest ≤ now)
    (hverify : task.verifyExistsAt = some checkEp)
    (hmissing : fileExists w checkEp task.path = false)
    (hsource : fileExists w task.endpoint task.path = true) :
    (executePrune deleteOk now task w).1 = PruneOutcome.verificationFailed ∧
    (executePrune deleteOk now task w).2 = w ∧
    fileExists (executePrune deleteOk now task w).2 task.endpoint task.path
      = true := by
  unfold executePrune
  simp [hpath, Nat.not_lt.mpr helig, hverify, hmissing, hsource]

/-- Witness for C1 at a concrete world: the downstream copy at
`nersc832_raw` is missing, so pruning `alcf832_raw` reports verification
failure and leaves the raw copy in place. -/
theorem prune_verification_failure_preserves_source_witness :
    (executePrune true 5
      { endpoint := "alcf832_raw", path := ["rec", "sample1"],
        earliest := 3, verifyExistsAt := some "nersc832_raw" }
      [("alcf832_raw", ["rec", "sample1"])]).1
        = PruneOutcome.verificationFailed ∧
    (executePrune true 5
      { endpoint := "alcf832_raw", path := ["rec", "sample1"],
        earliest := 3, verifyExistsAt := some "nersc832_raw" }
      [("alcf832_raw", ["rec", "sample1"])]).2
        = [("alcf832_raw", ["rec", "sample1"])] ∧
    fileExists
      (executePrune true 5
        { endpoint := "alcf832_raw", path := ["rec", "sample1"],
          earliest := 3, verifyExistsAt := some "nersc832_raw" }
        [("alcf832_raw", ["rec", "sample1"])]).2
      "alcf832_raw" ["rec", "sample1"] = true :=
  prune_verification_failure_preserves_source true 5 _ _ "nersc832_raw"
    (by decide) (by decide) rfl (by decide) (by decide)

/-- C3: a PruneTask scheduled with delete-after-days `d` at time `T` never
deletes before its earliest-eligible-time `T + d` — at any `t1 < T + d`
the world is unchanged and the file is still present — and at any
`t2 ≥ T + d`, with the downstream verification passing, it deletes and
reports success. -/
theorem prune_respects_earliest_eligible_time
    (T d t1 t2 : Nat) (ep checkEp : String) (p : List String) (w : World)
    (hpath : pathValid p = true)
    (ht1 : t1 < T + d)
    (ht2 : T + d ≤ t2)
    (hcheck : fileExists w checkEp p = true)
    (hsource : fileExists w ep p = true) :
    (executePrune true t1 (schedulePrune T ep p d (some checkEp)) w).2 = w ∧
    fileExists (executePrune true t1 (schedulePrune T ep p d (some checkEp)) w).2
      ep p = true ∧
    (executePrune true t2 (schedulePrune T ep p d (some checkEp)) w).1
      = PruneOutcome.pruneSuccess ∧
    fileExists (executePrune true t2 (schedulePrune T ep p d (some checkEp)) w).2
      ep p = false := by
  unfold executePrune schedulePrune
  simp [hpath, ht1, Nat.not_lt.mpr ht2, hcheck, hsource,
    fileExists_deleteFile_self]

/-- Witness for C3, the spec's scenario with `delete-after-days = 2`:
scheduled at `T = 0`, executing at day 1 leaves the file in place, and
executing at day 2 deletes it. -/
theorem prune_respects_earliest_eligible_time_witness :
    (executePrune true 1
      (schedulePrune 0 "alcf832_raw" ["rec", "sample2"] 2 (some "nersc832_raw"))
      [("alcf832_raw", ["rec", "sample2"]), ("nersc832_raw", ["rec", "sample2"])]).2
      = [("alcf832_raw", ["rec", "sample2"]), ("nersc832_raw", ["rec", "sample2"])] ∧
    fileExists
      (executePrune true 1
        (schedulePrune 0 "alcf832_raw" ["rec", "sample2"] 2 (some "nersc832_raw"))
        [("alcf832_raw", ["rec", "sample2"]), ("nersc832_raw", ["rec", "sample2"])]).2
      "alcf832_raw" ["rec", "sample2"] = true ∧
    (executePrune true 2
      (schedulePrune 0 "alcf832_raw" ["rec", "sample2"] 2 (some "nersc832_raw"))
      [("alcf832_raw", ["rec", "sample2"]), ("nersc832_raw", ["rec", "sample2"])]).1
      = PruneOutcome.pruneSuccess ∧
    fileExists
      (executePrune true 2
        (schedulePrune 0 "alcf832_raw" ["rec", "sample2"] 2 (some "nersc832_raw"))
        [("alcf832_raw", ["rec", "sample2"]), ("nersc832_raw", ["rec", "sample2"])]).2
      "alcf832_raw" ["rec", "sample2"] = false :=
  prune_respects_earliest_eligible_time 0 2 1 2 "alcf832_raw" "nersc832_raw"
    ["rec", "sample2"] _ (by decide) (by decide) (by decide) (by decide)
    (by decide)

/-- C5: executing the same PruneTask twice is idempotent — the first
execution deletes and reports success, the second finds the file already
absent, changes nothing, and also reports success. -/
theorem prune_idempotent
    (now : Nat) (task : PruneTask) (w : World)
    (hpath : pathValid task.path = true)
    (helig : task.earliest ≤ now)
    (hverify : match task.verifyExistsAt with
      | none => True
      | some checkEp =>
        checkEp ≠ task.endpoint ∧ fileExists w checkEp task.path = true)
    (hsource : fileExists w task.endpoint task.path = true) :
    (executePrune true now task w).1 = PruneOutcome.pruneSuccess ∧
    (executePrune true now task (executePrune true now task w).2).1
      = PruneOutcome.pruneSuccess ∧
    (executePrune true now task (executePrune true now task w).2).2
      = (executePrune true now task w).2 := by
  cases hv : task.verifyExistsAt with
  | none =>
    rw [hv] at hverify
    unfold executePrune
    simp [hpath, Nat.not_lt.mpr helig, hv, hsource, fileExists_deleteFile_self]
  | some checkEp =>
    rw [hv] at hverify
    obtain ⟨hne, hcheck⟩ := hverify
    have hcheck' :
        fileExists (deleteFile w task.endpoint task.path) checkEp task.path
          = true := by
      rw [fileExists_deleteFile_ne]
      · exact hcheck
      · intro hcontra
        exact hne (congrArg Prod.fst hcontra)
    unfold executePrune
    simp [hpath, Nat.not_lt.mpr helig, hv, hcheck, hcheck', hsource,
      fileExists_deleteFile_self]

/-- Witness for C5: pruning the ALCF raw copy twice; the second run is a
no-op success on the already-deleted file. -/
theorem prune_idempotent_witness :
    (executePrune true 4
      { endpoint := "alcf832_raw", path := ["rec", "sample3"],
        earliest := 4, verifyExistsAt := some "nersc832_raw" }
      [("alcf832_raw", ["rec", "sample3"]),
       ("nersc832_raw", ["rec", "sample3"])]).1
      = PruneOutcome.pruneSuccess ∧
    (executePrune true 4
      { endpoint := "alcf832_raw", path := ["rec", "sample3"],
        earliest := 4, verifyExistsAt := some "nersc832_raw" }
      (executePrune true 4
        { endpoint := "alcf832_raw", path := ["rec", "sample3"],
          earliest := 4, verifyExistsAt := some "nersc832_raw" }
        [("alcf832_raw", ["rec", "sample3"]),
         ("nersc832_raw", ["rec", "sample3"])]).2).1
      = PruneOutcome.pruneSuccess ∧
    (executePrune true 4
      { endpoint := "alcf832_raw", path := ["rec", "sample3"],
        earliest := 4, verifyExistsAt := some "nersc832_raw" }
      (executePrune true 4
        { endpoint := "alcf832_raw", path := ["rec", "sample3"],
          earliest := 4, verifyExistsAt := some "nersc832_raw" }
        [("alcf832_raw", ["rec", "sample3"]),
         ("nersc832_raw", ["rec", "sample3"])]).2).2
      = (executePrune true 4
          { endpoint := "alcf832_raw", path := ["rec", "sample3"],
            earliest := 4, verifyExistsAt := some "nersc832_raw" }
          [("alcf832_raw", ["rec", "sample3"]),
           ("nersc832_raw", ["rec", "sample3"])]).2 :=
  prune_idempotent 4
    { endpoint := "alcf832_raw", path := ["rec", "sample3"],
      earliest := 4, verifyExistsAt := some "nersc832_raw" }
    [("alcf832_raw", ["rec", "sample3"]),
     ("nersc832_raw", ["rec", "sample3"])]
    (by decide) (by decide) ⟨by decide, by decide⟩ (by decide)

/-- C4: for every source, destination, and relative path that is empty or
contains a `..` traversal component, the transfer call fails with a
traversal error making no submission to the movement service, and the
prune call fails with the invalid-path outcome deleting nothing. -/
theorem traversal_rejected_no_io
    (cfg : TransferConfig) (env : MoverEnv) (src dst : String)
    (deleteOk : Bool) (now : Nat) (ep : String) (earliest : Nat)
    (verify : Option String) (w : World) (p : List String)
    (hbad : p = [] ∨ p.contains ".." = true) :
    (transfer cfg env src dst p).1.outcome = TransferOutcome.traversalError ∧
    (transfer cfg env src dst p).2 = 0 ∧
    (executePrune deleteOk now
      { endpoint := ep, path := p, earliest := earliest,
        verifyExistsAt := verify } w).1 = PruneOutcome.invalidPath ∧
    (executePrune deleteOk now
      { endpoint := ep, path := p, earliest := earliest,
        verifyExistsAt := verify } w).2 = w := by
  have hval : pathValid p = false := by
    rcases hbad with h | h
    · simp [pathValid, h]
    · have hm : ".." ∈ p := by simpa using h
      simp [pathValid, hm]
  unfold transfer executePrune
  simp [hval]

/-- Witness for C4 at the concrete path `["..", "etc"]`. -/
theorem traversal_rejected_no_io_witness :
    (transfer { maxSubmitAttempts := 3, maxPolls := 5 }
      { submit := fun _ => SubmitResult.accepted 0,
        status := fun _ => PollStatus.pending }
      "data832" "nersc832" ["..", "etc"]).1.outcome
        = TransferOutcome.traversalError ∧
    (transfer { maxSubmitAttempts := 3, maxPolls := 5 }
      { submit := fun _ => SubmitResult.accepted 0,
        status := fun _ => PollStatus.pending }
      "data832" "nersc832" ["..", "etc"]).2 = 0 ∧
    (executePrune true 9
      { endpoint := "data832", path := ["..", "etc"], earliest := 0,
        verifyExistsAt := none }
      [("data832", ["..", "etc"])]).1 = PruneOutcome.invalidPath ∧
    (executePrune true 9
      { endpoint := "data832", path := ["..", "etc"], earliest := 0,
        verifyExistsAt := none }
      [("data832", ["..", "etc"])]).2 = [("data832", ["..", "etc"])] :=
  traversal_rejected_no_io _ _ "data832" "nersc832" true 9 "data832" 0 none
    _ _ (Or.inr (by decide))

/-- When every poll inside the `max_wait` window reports pending, the poll
loop exhausts its budget and reports a timeout. -/
theorem pollLoop_all_pending (status : Nat → PollStatus) :
    ∀ n i, (∀ j, j < n → status (i + j) = PollStatus.pending) →
      pollLoop status n i = TransferOutcome.timedOut := by
  intro n
  induction n with
  | zero => intro i _; rfl
  | succ m ih =>
    intro i h
    have h0 : status i = PollStatus.pending := by
      simpa using h 0 (Nat.succ_pos m)
    have hrest : ∀ j, j < m → status (i + 1 + j) = PollStatus.pending := by
      intro j hj
      have := h (j + 1) (by omega)
      have harith : i + (j + 1) = i + 1 + j := by omega
      rwa [harith] at this
    simp [pollLoop, h0, ih (i + 1) hrest]

/-- C7: a transfer whose status polling reaches the configured `max_wait`
without the remote transfer completing returns outcome timed-out, not
failed. -/
theorem transfer_timeout_reports_timed_out
    (cfg : TransferConfig) (env : MoverEnv) (src dst : String)
    (p : List String) (tid : Nat)
    (hpath : pathValid p = true)
    (hsubmit : env.submit 0 = SubmitResult.accepted tid)
    (hattempts : 1 ≤ cfg.maxSubmitAttempts)
    (hpending : ∀ j, j < cfg.maxPolls → env.status j = PollStatus.pending) :
    (transfer cfg env src dst p).1.outcome = TransferOutcome.timedOut ∧
    (transfer cfg env src dst p).1.outcome ≠ TransferOutcome.failed := by
  obtain ⟨k, hk⟩ : ∃ k, cfg.maxSubmitAttempts = k + 1 :=
    ⟨cfg.maxSubmitAttempts - 1, by omega⟩
  have hpoll : pollLoop env.status cfg.maxPolls 0 = TransferOutcome.timedOut := by
    apply pollLoop_all_pending
    intro j hj
    simpa using hpending j hj
  unfold transfer
  simp [hpath, hk, trySubmit, hsubmit, hpoll]

/-- Witness for C7: five polls, all pending, on a transfer accepted at the
first submission attempt. -/
theorem transfer_timeout_reports_timed_out_witness :
    (transfer { maxSubmitAttempts := 3, maxPolls := 5 }
      { submit := fun _ => SubmitResult.accepted 11,
        status := fun _ => PollStatus.pending }
      "data832" "nersc832" ["raw", "scan.h5"]).1.outcome
        = TransferOutcome.timedOut ∧
    (transfer { maxSubmitAttempts := 3, maxPolls := 5 }
      { submit := fun _ => SubmitResult.accepted 11,
        status := fun _ => PollStatus.pending }
      "data832" "nersc832" ["raw", "scan.h5"]).1.outcome
        ≠ TransferOutcome.failed :=
  transfer_timeout_reports_timed_out _ _ "data832" "nersc832"
    ["raw", "scan.h5"] 11 (by decide) rfl (by decide) (fun _ _ => rfl)

/-- When every submission attempt raises a transport error, the retry loop
uses its whole budget and captures the last error. -/
theorem trySubmit_all_errors (submit : Nat → SubmitResult)
    (errs : Nat → String)
    (hall : ∀ i, submit i = SubmitResult.transportError (errs i)) :
    ∀ n used lastErr,
      trySubmit submit (n + 1) used lastErr
        = (none, used + (n + 1), some (errs (used + n))) := by
  intro n
  induction n with
  | zero =>
    intro used lastErr
    simp [trySubmit, hall used]
  | succ m ih =>
    intro used lastErr
    have step : trySubmit submit (m + 1 + 1) used lastErr
        = trySubmit submit (m + 1) (used + 1) (some (errs used)) := by
      simp [trySubmit, hall used]
    rw [step, ih (used + 1) (some (errs used))]
    have ha : used + 1 + (m + 1) = used + (m + 1 + 1) := by omega
    have hb : used + 1 + m = used + (m + 1) := by omega
    rw [ha, hb]

/-- C8: a transfer whose submission hits a transient transport error on the
first two attempts and is accepted on the third returns outcome succeeded
with attempt_count = 3; a transfer all of whose submission attempts fail
returns outcome failed with the last error captured. -/
theorem transfer_submission_retry
    (cfg1 cfg2 : TransferConfig) (env1 env2 : MoverEnv)
    (src dst : String) (p : List String)
    (e1 e2 : String) (tid k m : Nat) (errs : Nat → String) (n2 : Nat)
    (hpath : pathValid p = true)
    (hcfg1 : cfg1.maxSubmitAttempts = k + 3)
    (h0 : env1.submit 0 = SubmitResult.transportError e1)
    (h1 : env1.submit 1 = SubmitResult.transportError e2)
    (h2 : env1.submit 2 = SubmitResult.accepted tid)
    (hpolls : cfg1.maxPolls = m + 1)
    (hstat : env1.status 0 = PollStatus.succeededS)
    (hcfg2 : cfg2.maxSubmitAttempts = n2 + 1)
    (hallfail : ∀ i, env2.submit i = SubmitResult.transportError (errs i)) :
    (transfer cfg1 env1 src dst p).1.outcome = TransferOutcome.succeeded ∧
    (transfer cfg1 env1 src dst p).1.attemptCount = 3 ∧
    (transfer cfg2 env2 src dst p).1.outcome = TransferOutcome.failed ∧
    (transfer cfg2 env2 src dst p).1.errorDetail = some (errs n2) := by
  have hthree : trySubmit env1.submit (k + 3) 0 none = (some tid, 3, some e2) := by
    show trySubmit env1.submit (k + 2 + 1) 0 none = (some tid, 3, some e2)
    rw [trySubmit, h0]
    show trySubmit env1.submit (k + 1 + 1) 1 (some e1) = (some tid, 3, some e2)
    rw [trySubmit, h1]
    show trySubmit env1.submit (k + 0 + 1) 2 (some e2) = (some tid, 3, some e2)
    rw [trySubmit, h2]
  have hfailall : trySubmit env2.submit (n2 + 1) 0 none
      = (none, n2 + 1, some (errs n2)) := by
    have := trySubmit_all_errors env2.submit errs hallfail n2 0 none
    simpa using this
  unfold transfer
  simp [hpath, hcfg1, hcfg2, hthree, hfailall, hpolls, pollLoop, hstat]

/-- Witness for C8: the spec's scenario concretely — two connection resets
then acceptance gives succeeded with three attempts; an always-down mover
gives failed with the captured error. -/
theorem transfer_submission_retry_witness :
    (transfer { maxSubmitAttempts := 3, maxPolls := 5 }
      { submit := fun i =>
          if i = 0 then SubmitResult.transportError "conn reset"
          else if i = 1 then SubmitResult.transportError "conn reset again"
          else SubmitResult.accepted 7,
        status := fun _ => PollStatus.succeededS }
      "data832" "nersc832" ["raw", "scan2.h5"]).1.outcome
        = TransferOutcome.succeeded ∧
    (transfer { maxSubmitAttempts := 3, maxPolls := 5 }
      { submit := fun i =>
          if i = 0 then SubmitResult.transportError "conn reset"
          else if i = 1 then SubmitResult.transportError "conn reset again"
          else SubmitResult.accepted 7,
        status := fun _ => PollStatus.succeededS }
      "data832" "nersc832" ["raw", "scan2.h5"]).1.attemptCount = 3 ∧
    (transfer { maxSubmitAttempts := 2, maxPolls := 5 }
      { submit := fun _ => SubmitResult.transportError "mover down",
        status := fun _ => PollStatus.pending }
      "data832" "nersc832" ["raw", "scan2.h5"]).1.outcome
        = TransferOutcome.failed ∧
    (transfer { maxSubmitAttempts := 2, maxPolls := 5 }
      { submit := fun _ => SubmitResult.transportError "mover down",
        status := fun _ => PollStatus.pending }
      "data832" "nersc832" ["raw", "scan2.h5"]).1.errorDetail
        = some ((fun _ => "mover down") 1) :=
  transfer_submission_retry
    { maxSubmitAttempts := 3, maxPolls := 5 }
    { maxSubmitAttempts := 2, maxPolls := 5 }
    { submit := fun i =>
        if i = 0 then SubmitResult.transportError "conn reset"
        else if i = 1 then SubmitResult.transportError "conn reset again"
        else SubmitResult.accepted 7,
      status := fun _ => PollStatus.succeededS }
    { submit := fun _ => SubmitResult.transportError "mover down",
      status := fun _ => PollStatus.pending }
    "data832" "nersc832" ["raw", "scan2.h5"]
    "conn reset" "conn reset again" 7 0 4 (fun _ => "mover down") 1
    (by decide) rfl rfl rfl rfl rfl rfl rfl (fun _ => rfl)

/-- If an attempted stage did not succeed, the run halted exactly there:
every stage attempted through that point other than it succeeded, nothing
past it in the journey was attempted, and the halt is recorded. -/
theorem runStages_halts_at_failure (oracle : Stage → StageResult)
    (comp : Stage → Bool) :
    ∀ stages s, s ∈ (runStages oracle comp stages).1 →
      oracle s ≠ StageResult.stageSuccess →
      ∃ pre post, stages = pre ++ s :: post ∧
        (runStages oracle comp stages).1 ⊆ pre ++ [s] ∧
        (runStages oracle comp stages).2 = some (s, oracle s) ∧
        ∀ t ∈ (runStages oracle comp stages).1, t ≠ s →
          oracle t = StageResult.stageSuccess := by
  intro stages
  induction stages with
  | nil => intro s hmem; simp [runStages] at hmem
  | cons a rest ih =>
    intro s hmem hfail
    by_cases hc : comp a = true
    · rw [show runStages oracle comp (a :: rest) = runStages oracle comp rest
        from by simp [runStages, hc]] at hmem ⊢
      obtain ⟨pre, post, hsplit, hsub, hhalt, hsucc⟩ := ih s hmem hfail
      exact ⟨a :: pre, post, by simp [hsplit], fun t ht =>
        List.mem_append.mpr (by
          rcases List.mem_append.mp (hsub ht) with h | h
          · exact Or.inl (List.mem_cons_of_mem a h)
          · exact Or.inr h), hhalt, hsucc⟩
    · cases hres : oracle a with
      | stageSuccess =>
        rw [show runStages oracle comp (a :: rest)
            = ((a :: (runStages oracle comp rest).1),
               (runStages oracle comp rest).2)
          from by simp [runStages, hc, hres]] at hmem ⊢
        simp only [List.mem_cons] at hmem
        rcases hmem with hsa | hmem
        · exact absurd (hsa ▸ hres) hfail
        · obtain ⟨pre, post, hsplit, hsub, hhalt, hsucc⟩ := ih s hmem hfail
          refine ⟨a :: pre, post, by simp [hsplit], ?_, hhalt, ?_⟩
          · intro t ht
            simp only [List.mem_cons] at ht
            rcases ht with hta | ht
            · subst hta
              simp
            · exact List.mem_append.mpr (by
                rcases List.mem_append.mp (hsub ht) with h | h
                · exact Or.inl (List.mem_cons_of_mem a h)
                · exact Or.inr h)
          · intro t ht htne
            simp only [List.mem_cons] at ht
            rcases ht with hta | ht
            · exact hta ▸ hres
            · exact hsucc t ht htne
      | stageFailed =>
        rw [show runStages oracle comp (a :: rest)
            = ([a], some (a, StageResult.stageFailed))
          from by simp [runStages, hc, hres]] at hmem ⊢
        simp only [List.mem_singleton] at hmem
        subst hmem
        exact ⟨[], rest, rfl, by simp, by simp [hres], by
          intro t ht htne
          simp only [List.mem_singleton] at ht
          exact absurd ht htne⟩
      | stageTimedOut =>
        rw [show runStages oracle comp (a :: rest)
            = ([a], some (a, StageResult.stageTimedOut))
          from by simp [runStages, hc, hres]] at hmem ⊢
        simp only [List.mem_singleton] at hmem
        subst hmem
        exact ⟨[], rest, rfl, by simp, by simp [hres], by
          intro t ht htne
          simp only [List.mem_singleton] at ht
          exact absurd ht htne⟩

/-- C2: a stage is attempted in a run only when every earlier attempted
stage succeeded; whenever an attempted stage's result is failed or
timed-out, the journey is split around that stage, no stage after it is
attempted in the same run, and the dispatcher surfaces the halt with that
stage and result. -/
theorem dispatcher_halts_on_stage_failure
    (oracle : Stage → StageResult) (comp : Stage → Bool)
    (stages : List Stage) (s : Stage)
    (hmem : s ∈ (runJourney oracle comp stages).attempted)
    (hfail : oracle s = StageResult.stageFailed ∨
      oracle s = StageResult.stageTimedOut) :
    ∃ pre post, stages = pre ++ s :: post ∧
      (runJourney oracle comp stages).attempted ⊆ pre ++ [s] ∧
      (runJourney oracle comp stages).outcome
        = RunOutcome.halted s (oracle s) ∧
      ∀ t ∈ (runJourney oracle comp stages).attempted, t ≠ s →
        oracle t = StageResult.stageSuccess := by
  have hne : oracle s ≠ StageResult.stageSuccess := by
    rcases hfail with h | h <;> simp [h]
  have hmem' : s ∈ (runStages oracle comp stages).1 := by
    simpa [runJourney] using hmem
  obtain ⟨pre, post, hsplit, hsub, hhalt, hsucc⟩ :=
    runStages_halts_at_failure oracle comp stages s hmem' hne
  refine ⟨pre, post, hsplit, ?_, ?_, ?_⟩
  · simpa [runJourney] using hsub
  · simp [runJourney, hhalt]
  · simpa [runJourney] using hsucc

/-- Witness for C2: the remote transfer stage fails, so only the local and
remote transfer stages are attempted and the halt is surfaced. -/
theorem dispatcher_halts_on_stage_failure_witness :
    ∃ pre post, journeyStages = pre ++ Stage.transferRemote :: post ∧
      (runJourney
        (fun s => if s = Stage.transferRemote
          then StageResult.stageFailed else StageResult.stageSuccess)
        (fun _ => false) journeyStages).attempted
        ⊆ pre ++ [Stage.transferRemote] ∧
      (runJourney
        (fun s => if s = Stage.transferRemote
          then StageResult.stageFailed else StageResult.stageSuccess)
        (fun _ => false) journeyStages).outcome
        = RunOutcome.halted Stage.transferRemote
            ((fun s => if s = Stage.transferRemote
              then StageResult.stageFailed else StageResult.stageSuccess)
              Stage.transferRemote) ∧
      ∀ t ∈ (runJourney
        (fun s => if s = Stage.transferRemote
          then StageResult.stageFailed else StageResult.stageSuccess)
        (fun _ => false) journeyStages).attempted,
        t ≠ Stage.transferRemote →
          (fun s => if s = Stage.transferRemote
            then StageResult.stageFailed else StageResult.stageSuccess) t
            = StageResult.stageSuccess :=
  dispatcher_halts_on_stage_failure
    (fun s => if s = Stage.transferRemote
      then StageResult.stageFailed else StageResult.stageSuccess)
    (fun _ => false) journeyStages Stage.transferRemote
    (by decide) (Or.inl (by decide))

/-- A run over stages that are all already complete attempts nothing and
halts nowhere. -/
theorem runStages_all_completed (oracle : Stage → StageResult)
    (comp : Stage → Bool) :
    ∀ stages, (∀ s ∈ stages, comp s = true) →
      runStages oracle comp stages = ([], none) := by
  intro stages
  induction stages with
  | nil => intro _; rfl
  | cons a rest ih =>
    intro h
    have ha : comp a = true := h a (List.mem_cons_self a rest)
    have hrest := ih fun s hs => h s (List.mem_cons_of_mem a hs)
    simp [runStages, ha, hrest]

/-- A stage whose already-completed check holds is never attempted. -/
theorem runStages_skips_completed (oracle : Stage → StageResult)
    (comp : Stage → Bool) :
    ∀ stages s, comp s = true → s ∉ (runStages oracle comp stages).1 := by
  intro stages
  induction stages with
  | nil => intro s _; simp [runStages]
  | cons a rest ih =>
    intro s hs
    by_cases hc : comp a = true
    · rw [show runStages oracle comp (a :: rest) = runStages oracle comp rest
        from by simp [runStages, hc]]
      exact ih s hs
    · have hne : s ≠ a := fun h => hc (h ▸ hs)
      cases hres : oracle a with
      | stageSuccess =>
        rw [show runStages oracle comp (a :: rest)
            = ((a :: (runStages oracle comp rest).1),
               (runStages oracle comp rest).2)
          from by simp [runStages, hc, hres]]
        simp only [List.mem_cons, not_or]
        exact ⟨hne, ih s hs⟩
      | stageFailed =>
        rw [show runStages oracle comp (a :: rest)
            = ([a], some (a, StageResult.stageFailed))
          from by simp [runStages, hc, hres]]
        simpa using hne
      | stageTimedOut =>
        rw [show runStages oracle comp (a :: rest)
            = ([a], some (a, StageResult.stageTimedOut))
          from by simp [runStages, hc, hres]]
        simpa using hne

/-- C6: re-invoking the dispatcher on a dataset whose stages are all
already complete attempts no stage — so no additional transfers or
remote-compute submissions — and returns the already-completed outcome;
and in any run at all, a stage whose already-completed check holds is
skipped, never attempted. -/
theorem dispatcher_idempotent_when_done
    (oracle oracle2 : Stage → StageResult) (compDone comp2 : Stage → Bool)
    (stages stages2 : List Stage) (s2 : Stage)
    (hdone : ∀ s ∈ stages, compDone s = true)
    (hs2 : comp2 s2 = true) :
    (runJourney oracle compDone stages).attempted = [] ∧
    (runJourney oracle compDone stages).outcome = RunOutcome.alreadyComplete ∧
    s2 ∉ (runJourney oracle2 comp2 stages2).attempted := by
  have hall := runStages_all_completed oracle compDone stages hdone
  refine ⟨by simp [runJourney, hall], by simp [runJourney, hall], ?_⟩
  simpa [runJourney] using runStages_skips_completed oracle2 comp2 stages2 s2 hs2

/-- Witness for C6: a dataset in the done state (every stage's completion
check true) is not re-processed, and a partially re-run journey whose
local transfer is already complete does not re-attempt it. -/
theorem dispatcher_idempotent_when_done_witness :
    (runJourney (fun _ => StageResult.stageSuccess) (fun _ => true)
      journeyStages).attempted = [] ∧
    (runJourney (fun _ => StageResult.stageSuccess) (fun _ => true)
      journeyStages).outcome = RunOutcome.alreadyComplete ∧
    Stage.transferLocal ∉ (runJourney (fun _ => StageResult.stageSuccess)
      (fun s => s = Stage.transferLocal) journeyStages).attempted :=
  dispatcher_idempotent_when_done
    (fun _ => StageResult.stageSuccess) (fun _ => StageResult.stageSuccess)
    (fun _ => true) (fun s => s = Stage.transferLocal)
    journeyStages journeyStages Stage.transferLocal
    (fun _ _ => rfl) (by decide)

/-- C9: whenever any flow run in `flowRunInfos` has a non-null state that
is RUNNING, SCHEDULED, or PENDING, the `LaunchFlowButton` component
renders nothing, so a second streaming session cannot be launched while
one is active or queued. -/
theorem launch_button_hidden_when_flow_active
    (flowRunInfos : List FlowRunInfo) (info : FlowRunInfo)
    (s : PrefectState)
    (hmem : info ∈ flowRunInfos)
    (hstate : info.state = some s)
    (hblock : s ∈ launchBlockingStates) :
    launchFlowButtonRenders flowRunInfos = false := by
  have hact : anyActiveFlow flowRunInfos = true := by
    unfold anyActiveFlow
    rw [List.any_eq_true]
    refine ⟨info, hmem, ?_⟩
    rw [hstate]
    simpa [List.contains] using List.elem_iff.mpr hblock
  simp [launchFlowButtonRenders, hact]

/-- Witness for C9: with one RUNNING flow run in the list, the launch
button is not rendered. -/
theorem launch_button_hidden_when_flow_active_witness :
    launchFlowButtonRenders
      [{ id := "run-1", state := some PrefectState.RUNNING },
       { id := "run-2", state := none }] = false :=
  launch_button_hidden_when_flow_active
    [{ id := "run-1", state := some PrefectState.RUNNING },
     { id := "run-2", state := none }]
    { id := "run-1", state := some PrefectState.RUNNING }
    PrefectState.RUNNING (by decide) rfl (by decide)

/-- C10: for elapsed and timelimit strings in HH:MM:SS form with a
positive time limit, the `percentageUsed` value passed to the progress bar
is at most 100, and `timeToSeconds` returns 0 for a null input. -/
theorem slurm_percentage_capped
    (elapsed timelimit : List Char) (es ls : Nat)
    (_he : timeToSeconds (some elapsed) = some es)
    (_hl : timeToSeconds (some timelimit) = some ls)
    (_hpos : 0 < ls) :
    percentageUsed es ls ≤ 100 ∧ timeToSeconds none = some 0 :=
  ⟨min_le_right _ _, rfl⟩

/-- Witness for C10 on the concrete strings "01:30:00" and "02:00:00". -/
theorem slurm_percentage_capped_witness :
    percentageUsed 5400 7200 ≤ 100 ∧ timeToSeconds none = some 0 :=
  slurm_percentage_capped "01:30:00".toList "02:00:00".toList 5400 7200
    (by decide) (by decide) (by decide)

end SplashFlows
